import Mathlib

/-!
Verification development for the `climate_group_helper` integration.

The Python sources are shallowly embedded: pure helper functions become Lean
functions, the mutable group/handler state becomes explicit state passing, and
Python floats are modelled as exact rationals (`ℚ`).  Machine-level float
behaviour is outside the model; all numeric reasoning is exact.
-/

namespace ClimateGroupHelper

/-- The Home Assistant `HVACMode` enum, in its declaration order
(`OFF, HEAT, COOL, HEAT_COOL, AUTO, DRY, FAN_ONLY`). -/
inductive HVACMode where
  | off
  | heat
  | cool
  | heat_cool
  | auto
  | dry
  | fan_only
deriving DecidableEq, Repr

/-- The enum members in declaration order, used by `sort_hvac_modes`
(`[m for m in HVACMode if m in modes]` iterates in this order). -/
def allHVACModes : List HVACMode :=
  [.off, .heat, .cool, .heat_cool, .auto, .dry, .fan_only]

/-- The string value of each `HVACMode` member (`StrEnum` values). -/
def HVACMode.str : HVACMode → String
  | .off => "off"
  | .heat => "heat"
  | .cool => "cool"
  | .heat_cool => "heat_cool"
  | .auto => "auto"
  | .dry => "dry"
  | .fan_only => "fan_only"

/-- The Home Assistant `HVACAction` enum values that can appear as a member's
`hvac_action` attribute. -/
inductive HVACAction where
  | off
  | idle
  | heating
  | cooling
  | drying
  | fan
  | preheating
  | defrosting
deriving DecidableEq, Repr

/-- The configured HVAC mode strategy (`hvac_mode_strategy` option):
`auto`, `normal` or `off_priority`. -/
inductive HvacStrategy where
  | auto
  | normal
  | off_priority
deriving DecidableEq, Repr

/-- Python's `max(l, key=f)` for a non-empty list `a :: l`: iterate, replacing
the current best only on a strictly greater key, so ties are broken in favour
of the earliest element. -/
def pickMax (f : α → Nat) (a : α) (l : List α) : α :=
  l.foldl (fun best y => if f best < f y then y else best) a

/-- Embeds `max(active_hvac_modes, key=active_hvac_modes.count)` guarding for an
empty list, as computed by `ClimateGroup._determine_hvac_mode`
(`climate.py` lines 574–578): `None` when no member reports a non-OFF mode,
otherwise the earliest mode whose count in the non-OFF member modes is
maximal. -/
def most_common_active_hvac_mode (current_hvac_modes : List HVACMode) : Option HVACMode :=
  match current_hvac_modes.filter (· ≠ HVACMode.off) with
  | [] => none
  | a :: l =>
    some (pickMax ((current_hvac_modes.filter (· ≠ HVACMode.off)).count ·) a l)

/-- The strategy reassignment of `ClimateGroup._determine_hvac_mode`
(`climate.py` lines 583–589): `auto` resolves to `normal` when the group's
target HVAC mode is `OFF`/`None`, else to `off_priority`. -/
def resolve_strategy (strategy : HvacStrategy) (targetHvacMode : Option HVACMode) :
    HvacStrategy :=
  match strategy with
  | .auto =>
    match targetHvacMode with
    | none => .normal
    | some .off => .normal
    | some _ => .off_priority
  | s => s

/-- Embeds `ClimateGroup._determine_hvac_mode`, lines 571–608 of `climate.py`.

`current_hvac_modes` is the list of the valid members' current modes (the
member `state` strings, here the `HVACMode` inductive since the claim ranges
over valid modes); `targetHvacMode` is the group's `_target_hvac_mode`, read
by the `auto` strategy resolution. -/
def determine_hvac_mode (strategy : HvacStrategy) (targetHvacMode : Option HVACMode)
    (current_hvac_modes : List HVACMode) : Option HVACMode :=
  match resolve_strategy strategy targetHvacMode with
  | .normal =>
    if (if current_hvac_modes ≠ [] then
          current_hvac_modes.all (fun m => m = HVACMode.off) else false) then
      some HVACMode.off
    else
      most_common_active_hvac_mode current_hvac_modes
  | .off_priority =>
    if HVACMode.off ∈ current_hvac_modes then
      some HVACMode.off
    else
      most_common_active_hvac_mode current_hvac_modes
  | .auto => some HVACMode.off  -- unreachable: auto was resolved above

/-- The `round_option` configuration enum (`const.py` `RoundOption`):
`none`, `half`, `integer`. -/
inductive RoundOption where
  | none
  | half
  | integer
deriving DecidableEq, Repr

/-- Python's built-in `round` to an integer: round half to even, modelled
over exact rationals. -/
def roundHalfEven (q : ℚ) : ℤ :=
  if Int.fract q < 1/2 then ⌊q⌋
  else if 1/2 < Int.fract q then ⌊q⌋ + 1
  else if ⌊q⌋ % 2 = 0 then ⌊q⌋ else ⌊q⌋ + 1

/-- Embeds `ClimateGroup._mean_round`, lines 633–644 of `climate.py`: round a value's
fractional part according to the configured rounding option.  `half` is
`round(value * 2) / 2`, `integer` is `round(value)`, `none` passes through;
`None` input passes through as `None`. -/
def mean_round (value : Option ℚ) (round_option : RoundOption) : Option ℚ :=
  match value with
  | Option.none => Option.none
  | some v =>
    match round_option with
    | .half => some ((roundHalfEven (v * 2) : ℚ) / 2)
    | .integer => some ((roundHalfEven v : ℚ))
    | .none => some v

/-! ## `state.py`: the immutable `TargetState` value object -/

/-- A value stored in a `TargetState` field: mode names are strings, numeric
setpoints and the timestamp are rationals. -/
inductive TSVal where
  | s (v : String)
  | q (v : ℚ)
deriving DecidableEq, Repr

/-- The field names of the frozen dataclass `TargetState` (`state.py`
lines 11–36), in declaration order. -/
inductive TSKey where
  | hvac_mode
  | temperature
  | target_temp_low
  | target_temp_high
  | humidity
  | preset_mode
  | fan_mode
  | swing_mode
  | swing_horizontal_mode
  | last_updated_by_entity
  | last_updated_by_source
  | last_updated_timestamp
deriving DecidableEq, Repr

/-- Embeds `TargetState` field declaration order, as iterated by
`dataclasses.asdict` / `dataclasses.fields`. -/
def allTSKeys : List TSKey :=
  [.hvac_mode, .temperature, .target_temp_low, .target_temp_high, .humidity,
   .preset_mode, .fan_mode, .swing_mode, .swing_horizontal_mode,
   .last_updated_by_entity, .last_updated_by_source, .last_updated_timestamp]

/-- The frozen dataclass `TargetState` (`state.py` lines 11–36): every field
optional/`None` except `last_updated_timestamp`, which defaults to `0.0`. -/
structure TargetState where
  hvac_mode : Option String := none
  temperature : Option ℚ := none
  target_temp_low : Option ℚ := none
  target_temp_high : Option ℚ := none
  humidity : Option ℚ := none
  preset_mode : Option String := none
  fan_mode : Option String := none
  swing_mode : Option String := none
  swing_horizontal_mode : Option String := none
  last_updated_by_entity : Option String := none
  last_updated_by_source : Option String := none
  last_updated_timestamp : ℚ := 0
deriving DecidableEq, Repr

/-- Reading one `TargetState` field by name (`getattr(target_state, key)`);
the non-optional timestamp always reads as a value. -/
def getField (t : TargetState) : TSKey → Option TSVal
  | .hvac_mode => t.hvac_mode.map .s
  | .temperature => t.temperature.map .q
  | .target_temp_low => t.target_temp_low.map .q
  | .target_temp_high => t.target_temp_high.map .q
  | .humidity => t.humidity.map .q
  | .preset_mode => t.preset_mode.map .s
  | .fan_mode => t.fan_mode.map .s
  | .swing_mode => t.swing_mode.map .s
  | .swing_horizontal_mode => t.swing_horizontal_mode.map .s
  | .last_updated_by_entity => t.last_updated_by_entity.map .s
  | .last_updated_by_source => t.last_updated_by_source.map .s
  | .last_updated_timestamp => some (.q t.last_updated_timestamp)

/-- The `**kwargs` of `TargetState.update`: a Python keyword-argument dict
assigning a value to each present field (keys are unique by construction,
and all keys here are valid dataclass fields, so the `valid_fields` filter
of `update` passes everything through). -/
structure TargetDelta where
  hvac_mode : Option String := none
  temperature : Option ℚ := none
  target_temp_low : Option ℚ := none
  target_temp_high : Option ℚ := none
  humidity : Option ℚ := none
  preset_mode : Option String := none
  fan_mode : Option String := none
  swing_mode : Option String := none
  swing_horizontal_mode : Option String := none
  last_updated_by_entity : Option String := none
  last_updated_by_source : Option String := none
  last_updated_timestamp : Option ℚ := none
deriving DecidableEq, Repr

/-- Which value (if any) the delta assigns to a given field. -/
def deltaGet (d : TargetDelta) : TSKey → Option TSVal
  | .hvac_mode => d.hvac_mode.map .s
  | .temperature => d.temperature.map .q
  | .target_temp_low => d.target_temp_low.map .q
  | .target_temp_high => d.target_temp_high.map .q
  | .humidity => d.humidity.map .q
  | .preset_mode => d.preset_mode.map .s
  | .fan_mode => d.fan_mode.map .s
  | .swing_mode => d.swing_mode.map .s
  | .swing_horizontal_mode => d.swing_horizontal_mode.map .s
  | .last_updated_by_entity => d.last_updated_by_entity.map .s
  | .last_updated_by_source => d.last_updated_by_source.map .s
  | .last_updated_timestamp => d.last_updated_timestamp.map .q

/-- Embeds `TargetState.update` (`state.py` lines 38–48):
`dataclasses.replace(self, **filtered_kwargs)` — each field present in the
kwargs takes the given value, every other field keeps its current value; a
new instance is returned (the receiver is frozen and never mutated, which the
pure function models intrinsically). -/
def TargetState.update (t : TargetState) (d : TargetDelta) : TargetState where
  hvac_mode := match d.hvac_mode with | some v => some v | none => t.hvac_mode
  temperature := match d.temperature with | some v => some v | none => t.temperature
  target_temp_low :=
    match d.target_temp_low with | some v => some v | none => t.target_temp_low
  target_temp_high :=
    match d.target_temp_high with | some v => some v | none => t.target_temp_high
  humidity := match d.humidity with | some v => some v | none => t.humidity
  preset_mode := match d.preset_mode with | some v => some v | none => t.preset_mode
  fan_mode := match d.fan_mode with | some v => some v | none => t.fan_mode
  swing_mode := match d.swing_mode with | some v => some v | none => t.swing_mode
  swing_horizontal_mode :=
    match d.swing_horizontal_mode with | some v => some v | none => t.swing_horizontal_mode
  last_updated_by_entity :=
    match d.last_updated_by_entity with | some v => some v | none => t.last_updated_by_entity
  last_updated_by_source :=
    match d.last_updated_by_source with | some v => some v | none => t.last_updated_by_source
  last_updated_timestamp :=
    match d.last_updated_timestamp with | some v => v | none => t.last_updated_timestamp

/-- Embeds `TargetState.to_dict` with `attributes=None` (`state.py` lines 50–62):
`asdict(self)` restricted to fields whose value is not `None`, in field
declaration order. -/
def TargetState.to_dict (t : TargetState) : List (TSKey × TSVal) :=
  allTSKeys.filterMap (fun k => (getField t k).map (fun v => (k, v)))

/-- Python `dict` lookup on the association list produced by `to_dict`. -/
def dictLookup (k : TSKey) : List (TSKey × TSVal) → Option TSVal
  | [] => none
  | (k', v) :: rest => if k' = k then some v else dictLookup k rest

/-! ## `climate.py`: the group state aggregator `async_update_group_state` -/

/-- The averaging options (`const.py` `AverageOption`), selecting the
reducer from `CALC_TYPES`. -/
inductive AverageOption where
  | mean
  | median
  | min
  | max
deriving DecidableEq, Repr

/-- Feature/mode reduction strategy (`const.py`): `intersection` or `union`. -/
inductive FeatureStrategy where
  | intersection
  | union
deriving DecidableEq, Repr

/-- A member entity's state string: an `HVACMode` when the device reports
normally, or the sentinel states `unavailable` / `unknown`. -/
inductive MStatus where
  | available (mode : HVACMode)
  | unavailable
  | unknown
deriving DecidableEq, Repr

/-- One member climate entity's `State`: its state string plus the
attributes the aggregator reads (`None` = attribute absent). -/
structure MemberState where
  entity_id : String := ""
  status : MStatus := .unknown
  hvac_modes : Option (List HVACMode) := none
  hvac_action : Option HVACAction := none
  current_temperature : Option ℚ := none
  temperature : Option ℚ := none
  target_temp_low : Option ℚ := none
  target_temp_high : Option ℚ := none
  target_temp_step : Option ℚ := none
  min_temp : Option ℚ := none
  max_temp : Option ℚ := none
  current_humidity : Option ℚ := none
  humidity : Option ℚ := none
  min_humidity : Option ℚ := none
  max_humidity : Option ℚ := none
  fan_modes : Option (List String) := none
  fan_mode : Option String := none
  preset_modes : Option (List String) := none
  preset_mode : Option String := none
  swing_modes : Option (List String) := none
  swing_mode : Option String := none
  swing_horizontal_modes : Option (List String) := none
  swing_horizontal_mode : Option String := none
  supported_features : Option Nat := none
deriving DecidableEq, Repr

/-- Whether a member's state participates in aggregation
(`state.state not in (STATE_UNAVAILABLE, STATE_UNKNOWN)`). -/
def MemberState.isValid (s : MemberState) : Bool :=
  match s.status with
  | .available _ => true
  | _ => false

/-- Embeds `climate.py` line 678: the members whose state is neither
`unavailable` nor `unknown`. -/
def validMemberStates (all_states : List MemberState) : List MemberState :=
  all_states.filter (·.isValid)

/-- Embeds `min(*attrs)` over a non-empty list (junk value `0` on `[]`, which the
aggregator never passes). -/
def listMin : List ℚ → ℚ
  | [] => 0
  | a :: l => l.foldl min a

/-- Embeds `max(*attrs)` over a non-empty list (junk value `0` on `[]`). -/
def listMax : List ℚ → ℚ
  | [] => 0
  | a :: l => l.foldl max a

/-- Embeds `statistics.mean` (junk value on `[]`, never passed). -/
def listMean (l : List ℚ) : ℚ := l.sum / l.length

/-- Embeds `statistics.median`: middle element of the sorted list, or the average
of the two middle elements for even length (junk value on `[]`). -/
def listMedian (l : List ℚ) : ℚ :=
  let s := l.mergeSort (· ≤ ·)
  let n := l.length
  if n % 2 = 1 then s.getD (n / 2) 0
  else (s.getD (n / 2 - 1) 0 + s.getD (n / 2) 0) / 2

/-- Embeds `CALC_TYPES` (`climate.py` lines 102–107): the reducer selected by an
`AverageOption`. -/
def avgCalc : AverageOption → List ℚ → ℚ
  | .mean => listMean
  | .median => listMedian
  | .min => listMin
  | .max => listMax

/-- Embeds `homeassistant.components.group.util.reduce_attribute` for numeric
attributes: collect the attribute from each state that has it; if none have
it return the default, otherwise reduce the collected values.  (The host's
single-value shortcut `attrs[0]` coincides with every reducer used here on
one-element lists.) -/
def reduce_attribute (states : List MemberState) (get : MemberState → Option ℚ)
    (dflt : Option ℚ) (red : List ℚ → ℚ) : Option ℚ :=
  match states.filterMap get with
  | [] => dflt
  | attrs => some (red attrs)

/-- Embeds `reduce_attribute` with a non-`None` default (used for the temperature
and humidity limits, whose group attributes are always numbers). -/
def reduce_attribute_d (states : List MemberState) (get : MemberState → Option ℚ)
    (dflt : ℚ) (red : List ℚ → ℚ) : ℚ :=
  match states.filterMap get with
  | [] => dflt
  | attrs => red attrs

/-- Embeds `homeassistant.components.group.util.most_frequent_attribute`:
`max(set(attrs), key=attrs.count)` over the states that carry the attribute,
`None` if none do.  The host iterates a `set`; here the candidates are taken
in first-occurrence order, which fixes the host's unspecified tie order. -/
def most_frequent_attribute (states : List MemberState)
    (get : MemberState → Option String) : Option String :=
  let attrs := states.filterMap get
  match attrs.dedup with
  | [] => none
  | a :: l => some (pickMax (attrs.count ·) a l)

/-- Python `set(x) & set(y)` read back as a list: the members of `a` that
also occur in `b` (first-occurrence order standing in for set order, which
every caller normalizes by sorting). -/
def set_inter [DecidableEq α] (a b : List α) : List α := a.filter (· ∈ b)

/-- Python `set(x) | set(y)` read back as a list. -/
def set_union [DecidableEq α] (a b : List α) : List α :=
  a ++ b.dedup.filter (· ∉ a)

/-- The mode-list branch of `ClimateGroup._reduce_attributes`
(`climate.py` lines 545–558): drop empty/falsy lists, then fold set
intersection or union over the remaining lists; `[]` when nothing is left. -/
def reduce_mode_attributes [DecidableEq α] (strategy : FeatureStrategy)
    (attributes : List (List α)) : List α :=
  match attributes.filter (· ≠ []) with
  | [] => []
  | h :: t =>
    match strategy with
    | .intersection => t.foldl set_inter h.dedup
    | .union => t.foldl set_union h.dedup

/-- The feature-bitmask branch of `ClimateGroup._reduce_attributes`
(`climate.py` lines 537–543): bitwise AND (intersection) or OR (union) over
the members' `supported_features`; the given default when the list is empty. -/
def reduce_feature_attributes (strategy : FeatureStrategy)
    (attributes : List Nat) (dflt : Nat) : Nat :=
  match attributes with
  | [] => dflt
  | h :: t =>
    match strategy with
    | .intersection => t.foldl Nat.land h
    | .union => t.foldl Nat.lor h

/-- Embeds `ClimateGroup._sort_hvac_modes` (`climate.py` lines 561–568): append
`OFF`, then keep the `HVACMode` members (in enum order) that occur in the
list. -/
def sort_hvac_modes (modes : List HVACMode) : List HVACMode :=
  allHVACModes.filter (· ∈ modes ++ [HVACMode.off])

/-- Embeds `ClimateGroup._determine_hvac_action` (`climate.py` lines 611–630):
plurality of active (non-OFF/non-IDLE) actions, else IDLE if any member
idles, else OFF if any member is off, else `None`. -/
def determine_hvac_action (current_hvac_actions : List HVACAction) : Option HVACAction :=
  match current_hvac_actions.filter (· ∉ [HVACAction.off, HVACAction.idle]) with
  | [] =>
    if HVACAction.idle ∈ current_hvac_actions then some HVACAction.idle
    else if HVACAction.off ∈ current_hvac_actions then some HVACAction.off
    else none
  | a :: l =>
    some (pickMax
      ((current_hvac_actions.filter (· ∉ [HVACAction.off, HVACAction.idle])).count ·) a l)

/-- Embeds `homeassistant.components.group.util.states_equal`: all states equal the
first one (state string and attributes). -/
def states_equal (states : List MemberState) : Bool :=
  match states with
  | [] => true
  | h :: t => t.all (fun s => s = h)

/-- Embeds `SUPPORTED_FEATURES` (`climate.py` lines 121–131) as a bitmask:
`TARGET_TEMPERATURE(1) | TARGET_TEMPERATURE_RANGE(2) | TARGET_HUMIDITY(4) |
FAN_MODE(8) | PRESET_MODE(16) | SWING_MODE(32) | TURN_OFF(128) |
TURN_ON(256) | SWING_HORIZONTAL_MODE(512)`. -/
def SUPPORTED_FEATURES : Nat := 1 + 2 + 4 + 8 + 16 + 32 + 128 + 256 + 512

/-- Embeds `DEFAULT_SUPPORTED_FEATURES` (`climate.py` lines 133–136):
`TURN_OFF(128) | TURN_ON(256)`. -/
def DEFAULT_SUPPORTED_FEATURES : Nat := 128 + 256

/-- The external temperature sensor reading as seen by the update
(`climate.py` lines 714–723): not configured/absent, an invalid
(`unavailable`/`unknown`) state, a state that fails `float()`, or a parsed
value. -/
inductive SensorReading where
  | missing
  | invalid
  | unparsable
  | value (q : ℚ)
deriving DecidableEq, Repr

/-- The configuration consumed by the aggregator. -/
structure GroupConfig where
  current_avg : AverageOption := .mean
  target_avg : AverageOption := .mean
  round_option : RoundOption := .none
  hvac_mode_strategy : HvacStrategy := .normal
  feature_strategy : FeatureStrategy := .intersection
  has_temp_sensor : Bool := false
deriving Repr

/-- Group-entity state read but not written by the update: the configured
temperature sensor's reading and `_target_hvac_mode`. -/
structure GroupEnv where
  sensor : SensorReading := .missing
  target_hvac_mode : Option HVACMode := none
deriving Repr

/-- The group entity's exposed attributes (`_attr_*` fields plus
`_last_active_hvac_mode`), with the constructor defaults of
`ClimateGroup.__init__`. -/
structure GroupAttrs where
  available : Bool := false
  assumed_state : Bool := true
  hvac_modes : List HVACMode := [HVACMode.off]
  hvac_mode : Option HVACMode := none
  last_active_hvac_mode : Option HVACMode := none
  hvac_action : Option HVACAction := none
  current_temperature : Option ℚ := none
  averaged_current_temperature : Option ℚ := none
  target_temperature : Option ℚ := none
  target_temperature_step : Option ℚ := none
  target_temperature_low : Option ℚ := none
  target_temperature_high : Option ℚ := none
  min_temp : ℚ := 7
  max_temp : ℚ := 35
  current_humidity : Option ℚ := none
  target_humidity : Option ℚ := none
  min_humidity : ℚ := 30
  max_humidity : ℚ := 99
  fan_modes : Option (List String) := none
  fan_mode : Option String := none
  preset_modes : Option (List String) := none
  preset_mode : Option String := none
  swing_modes : Option (List String) := none
  swing_mode : Option String := none
  swing_horizontal_modes : Option (List String) := none
  swing_horizontal_mode : Option String := none
  supported_features : Nat := DEFAULT_SUPPORTED_FEATURES
deriving DecidableEq, Repr

/-- The state string of each valid member
(`current_hvac_modes = [state.state for state in self._states]`,
`climate.py` line 688); every valid member's state is its mode. -/
def currentHvacModes (states : List MemberState) : List HVACMode :=
  states.filterMap (fun s => match s.status with | .available m => some m | _ => none)

/-- Embeds `ClimateGroup.async_update_group_state` (`climate.py` lines 647–811),
as a pure function: `g` is the group's attribute state before the update,
`all_states` the member `State`s found in the state machine, `env` the
sensor reading and `_target_hvac_mode`.  The sync-mode handler side effects
and the `extra_state_attributes` dict are outside this state.

When no valid member remains, only `hvac_mode` and `available` are written
(lines 808–811); otherwise every attribute is recomputed.  The temperature
and humidity limits reproduce lines 746–765 verbatim: `min_temp` uses
`reduce=min`, `max_temp` uses `reduce=max`, `min_humidity` uses
`reduce=max`, `max_humidity` uses `reduce=min`. -/
def update_group_state (cfg : GroupConfig) (env : GroupEnv) (g : GroupAttrs)
    (all_states : List MemberState) : GroupAttrs :=
  let states := validMemberStates all_states
  if states = [] then
    { g with hvac_mode := none, available := false }
  else
    let hvac_mode :=
      determine_hvac_mode cfg.hvac_mode_strategy env.target_hvac_mode
        (currentHvacModes states)
    let last_active_hvac_mode :=
      if hvac_mode ≠ some HVACMode.off ∧ hvac_mode ≠ g.last_active_hvac_mode then
        hvac_mode
      else g.last_active_hvac_mode
    let averaged_current_temperature :=
      reduce_attribute states (·.current_temperature) none (avgCalc cfg.current_avg)
    { g with
      hvac_modes :=
        sort_hvac_modes
          (reduce_mode_attributes cfg.feature_strategy (states.filterMap (·.hvac_modes)))
      hvac_mode := hvac_mode
      last_active_hvac_mode := last_active_hvac_mode
      available := true
      assumed_state := !(states_equal states)
      hvac_action := determine_hvac_action (states.filterMap (·.hvac_action))
      averaged_current_temperature := averaged_current_temperature
      current_temperature :=
        if cfg.has_temp_sensor then
          match env.sensor with
          | .value q => some q
          | _ => averaged_current_temperature
        else averaged_current_temperature
      target_temperature :=
        mean_round (reduce_attribute states (·.temperature) none (avgCalc cfg.target_avg))
          cfg.round_option
      target_temperature_low :=
        mean_round
          (reduce_attribute states (·.target_temp_low) none (avgCalc cfg.target_avg))
          cfg.round_option
      target_temperature_high :=
        mean_round
          (reduce_attribute states (·.target_temp_high) none (avgCalc cfg.target_avg))
          cfg.round_option
      target_temperature_step :=
        reduce_attribute states (·.target_temp_step) none listMax
      min_temp := reduce_attribute_d states (·.min_temp) 7 listMin
      max_temp := reduce_attribute_d states (·.max_temp) 35 listMax
      current_humidity :=
        reduce_attribute states (·.current_humidity) none (avgCalc cfg.current_avg)
      target_humidity :=
        mean_round (reduce_attribute states (·.humidity) none (avgCalc cfg.target_avg))
          cfg.round_option
      min_humidity := reduce_attribute_d states (·.min_humidity) 30 listMax
      max_humidity := reduce_attribute_d states (·.max_humidity) 99 listMin
      fan_modes :=
        some ((reduce_mode_attributes cfg.feature_strategy
          (states.filterMap (·.fan_modes))).mergeSort (· ≤ ·))
      fan_mode := most_frequent_attribute states (·.fan_mode)
      preset_modes :=
        some ((reduce_mode_attributes cfg.feature_strategy
          (states.filterMap (·.preset_modes))).mergeSort (· ≤ ·))
      preset_mode := most_frequent_attribute states (·.preset_mode)
      swing_modes :=
        some ((reduce_mode_attributes cfg.feature_strategy
          (states.filterMap (·.swing_modes))).mergeSort (· ≤ ·))
      swing_mode := most_frequent_attribute states (·.swing_mode)
      swing_horizontal_modes :=
        some ((reduce_mode_attributes cfg.feature_strategy
          (states.filterMap (·.swing_horizontal_modes))).mergeSort (· ≤ ·))
      swing_horizontal_mode := most_frequent_attribute states (·.swing_horizontal_mode)
      supported_features :=
        (reduce_feature_attributes cfg.feature_strategy
          (states.filterMap (·.supported_features)) 0
          ||| DEFAULT_SUPPORTED_FEATURES) &&& SUPPORTED_FEATURES }

/-! ## `sync_mode.py`: the `SyncModeHandler` -/

/-- The sync mode (`const.py` `SyncMode`): `standard`, `lock`, `mirror`. -/
inductive SyncMode where
  | standard
  | lock
  | mirror
deriving DecidableEq, Repr

/-- The keys of `SYNC_MODE_WATCHED_ATTRIBUTES` (imported by `sync_mode.py`;
the mapping is spelled out in `climate.py` lines 109–115):
`hvac_mode` (the state string), `temperature`, `fan_mode`, `preset_mode`,
`swing_mode`. -/
inductive SyncKey where
  | hvac_mode
  | temperature
  | fan_mode
  | preset_mode
  | swing_mode
deriving DecidableEq, Repr

/-- The watched keys in dict order. -/
def allSyncKeys : List SyncKey :=
  [.hvac_mode, .temperature, .fan_mode, .preset_mode, .swing_mode]

/-- A member state string as `SyncModeHandler._get_attr_value` reads it for
the `hvac_mode` key (`state.state`). -/
def MStatus.str : MStatus → String
  | .available m => m.str
  | .unavailable => "unavailable"
  | .unknown => "unknown"

/-- Embeds `SyncModeHandler._get_attr_value` (`sync_mode.py` lines 363–368): the
state string for `hvac_mode`, otherwise the member attribute (or `None`). -/
def get_attr_value (s : MemberState) : SyncKey → Option TSVal
  | .hvac_mode => some (.s s.status.str)
  | .temperature => s.temperature.map .q
  | .fan_mode => s.fan_mode.map .s
  | .preset_mode => s.preset_mode.map .s
  | .swing_mode => s.swing_mode.map .s

/-- Embeds `SyncModeHandler._get_group_value` (`sync_mode.py` lines 357–361):
`temperature` reads `_attr_target_temperature`, the rest read the matching
`_attr_*` field. -/
def get_group_value (g : GroupAttrs) : SyncKey → Option TSVal
  | .hvac_mode => g.hvac_mode.map (fun m => .s m.str)
  | .temperature => g.target_temperature.map .q
  | .fan_mode => g.fan_mode.map .s
  | .preset_mode => g.preset_mode.map .s
  | .swing_mode => g.swing_mode.map .s

/-- The `_snapshot_attrs` dict: one (possibly `None`) stored group value per
watched key. -/
structure SnapAttrs where
  hvac_mode : Option TSVal := none
  temperature : Option TSVal := none
  fan_mode : Option TSVal := none
  preset_mode : Option TSVal := none
  swing_mode : Option TSVal := none
deriving DecidableEq, Repr

/-- Dict lookup in `_snapshot_attrs`. -/
def SnapAttrs.get (sa : SnapAttrs) : SyncKey → Option TSVal
  | .hvac_mode => sa.hvac_mode
  | .temperature => sa.temperature
  | .fan_mode => sa.fan_mode
  | .preset_mode => sa.preset_mode
  | .swing_mode => sa.swing_mode

/-- The dict comprehension of `_do_snapshot` (`sync_mode.py` lines 348–351):
`{key: self._get_group_value(key) for key in SYNC_MODE_WATCHED_ATTRIBUTES}`. -/
def snapAttrsOf (g : GroupAttrs) : SnapAttrs where
  hvac_mode := get_group_value g .hvac_mode
  temperature := get_group_value g .temperature
  fan_mode := get_group_value g .fan_mode
  preset_mode := get_group_value g .preset_mode
  swing_mode := get_group_value g .swing_mode

/-- The handler configuration read from the group:
`_sync_retry_attempts` (enforcement-loop retries), `_retry_attempts` and
`_retry_delay` (per-service-call retries, `const.py` `CONF_RETRY_ATTEMPTS` /
`CONF_RETRY_DELAY`), `_sync_mode_delay`, and the internal-change timeout
(`SYNC_INTERNAL_CHANGE_TIMEOUT`, imported by `sync_mode.py` but not defined
in the provided `const.py`; its value does not matter to the claims). -/
structure SyncConfig where
  sync_retry_attempts : Nat := 0
  retry_attempts : Nat := 0
  retry_delay : ℚ := 1
  sync_mode_delay : ℚ := 5
  internal_change_timeout : ℚ := 30
deriving Repr

/-- Modelled from the spec: `SYNC_SAFETY_BUFFER_SECONDS` is imported from
`const.py` but absent from the provided sources; the spec calls it a
safety-margin "magic buffer seconds" constant, and the in-`climate.py`
precursor of the handler uses `5` ("Safety buffer for network/processing
delays"). -/
def SYNC_SAFETY_BUFFER_SECONDS : ℚ := 5

/-- Embeds `SyncModeHandler.__init__` lines 50–54: the LOCK-mode reset timeout —
total retry duration plus the sync delay plus the safety buffer. -/
def reset_delay_seconds (cfg : SyncConfig) : ℚ :=
  (cfg.retry_attempts : ℚ) * cfg.retry_delay + cfg.sync_mode_delay +
    SYNC_SAFETY_BUFFER_SECONDS

/-- The `SyncModeHandler` mutable state: `_snapshot_attrs` (`none` models
the initial empty dict), `_snapshot_states`, the size of `_active_tasks`,
and the two conflict timers. -/
structure HandlerState where
  sync_mode : SyncMode := .standard
  snapshot_attrs : Option SnapAttrs := none
  snapshot_states : Option (List MemberState) := none
  active_tasks : Nat := 0
  last_sync_attempt : Option ℚ := none
  internal_change_start_time : Option ℚ := none
  sync_retry_counter : Nat := 0
deriving DecidableEq, Repr

/-- Embeds `self._snapshot_attrs.get(key)`: `None` while the dict is still empty. -/
def snapshot_attr_get (sa : Option SnapAttrs) (k : SyncKey) : Option TSVal :=
  match sa with
  | none => none
  | some a => a.get k

/-- The per-member change detection of `_get_service_calls`
(`sync_mode.py` lines 264–277): all watched keys when the member is absent
from the snapshot map (`{s.entity_id: s}`, later duplicates winning),
otherwise the keys whose values differ. -/
def changed_keys (snapStates : List MemberState) (s : MemberState) : List SyncKey :=
  match snapStates.reverse.find? (fun ls => ls.entity_id = s.entity_id) with
  | none => allSyncKeys
  | some last => allSyncKeys.filter (fun k => get_attr_value last k ≠ get_attr_value s k)

/-- The call-building loop of `_get_service_calls` (`sync_mode.py` lines
285–311) for the first changed member: LOCK reverts to the snapshot value,
MIRROR adopts the member value; keys whose target is `None` or already the
group's current value are skipped.  The `set_<key>` executors exist for all
five watched keys, so the `hasattr` guard always passes. -/
def build_service_calls (mode : SyncMode) (sa : Option SnapAttrs) (g : GroupAttrs)
    (s : MemberState) (keys : List SyncKey) : List (SyncKey × TSVal) :=
  keys.filterMap (fun k =>
    let target_value : Option TSVal :=
      match mode with
      | .lock => snapshot_attr_get sa k
      | .mirror => get_attr_value s k
      | .standard => none
    match target_value with
    | none => none
    | some tv => if get_group_value g k = some tv then none else some (k, tv))

/-- The `for state in self._group._states` scan of `_get_service_calls`:
the first member whose watched attributes deviate from the snapshot (the
loop returns from inside its first hit). -/
def first_changed_member (snap : List MemberState) (states : List MemberState) :
    Option MemberState :=
  states.find? (fun s => changed_keys snap s ≠ [])

/-- The pending-call list `_get_service_calls` computes, as a function of
the handler's snapshot fields (which enforcement never changes mid-loop),
the current member states and the current group attributes. -/
def pending_calls (mode : SyncMode) (sa : Option SnapAttrs)
    (ss : Option (List MemberState)) (states : List MemberState)
    (g : GroupAttrs) : List (SyncKey × TSVal) :=
  let snap := ss.getD []
  match first_changed_member snap states with
  | none => []
  | some s => build_service_calls mode sa g s (changed_keys snap s)

/-- Embeds `SyncModeHandler._get_service_calls` (`sync_mode.py` lines 260–323) as a
pure function: returns the pending calls for the first member that deviates
from the snapshot, plus the new `_last_sync_attempt` (set to `now` on the
first deviation that produces a call, reset when no member deviates,
otherwise kept).  Callers ensure `_snapshot_states` is set. -/
def get_service_calls (h : HandlerState) (states : List MemberState)
    (g : GroupAttrs) (now : ℚ) : List (SyncKey × TSVal) × Option ℚ :=
  let snap := h.snapshot_states.getD []
  match first_changed_member snap states with
  | none => ([], none)
  | some s =>
    let calls := build_service_calls h.sync_mode h.snapshot_attrs g s (changed_keys snap s)
    (calls,
      if calls ≠ [] ∧ h.last_sync_attempt = none then some now else h.last_sync_attempt)

/-- Embeds `SyncModeHandler._do_snapshot` (`sync_mode.py` lines 341–355): reset the
conflict timer and store the current group values and copies of the current
member states. -/
def do_snapshot (h : HandlerState) (g : GroupAttrs)
    (states : Option (List MemberState)) : HandlerState :=
  { h with
    last_sync_attempt := none
    snapshot_attrs := some (snapAttrsOf g)
    snapshot_states := some (states.getD []) }

/-- Embeds `SyncModeHandler.snapshot_group_state` (`sync_mode.py` lines 63–109):
`internal` is `_is_internal_change()` — the update context id equals the
group's last-issued command context id.  STANDARD: no-op.  Internal change:
cancel all active tasks (no snapshot).  Active syncing: no-op.  LOCK: fresh
snapshot if the conflict has outlived the reset timeout, else only an
initial snapshot.  MIRROR: snapshot (adopt). -/
def snapshot_group_state (h : HandlerState) (internal : Bool) (now : ℚ)
    (cfg : SyncConfig) (g : GroupAttrs)
    (states : Option (List MemberState)) : HandlerState :=
  if h.sync_mode = .standard then h
  else if internal then { h with active_tasks := 0 }
  else if h.active_tasks ≠ 0 then h
  else if h.sync_mode = .lock then
    if (match h.last_sync_attempt with
        | some t => decide (now - t > reset_delay_seconds cfg)
        | none => false) then
      do_snapshot h g states
    else if h.snapshot_attrs = none then do_snapshot h g states
    else h
  else do_snapshot h g states

/-- Embeds `SyncModeHandler.handle_sync_mode_changes` (`sync_mode.py` lines
111–191) as a pure function; the second component is whether a new
enforcement background task is started.  Internal changes either complete
(snapshot), start/extend the internal-change timer, or time out (snapshot) —
never starting enforcement.  External changes start one enforcement task
when none is active and corrections are pending. -/
def handle_sync_mode_changes (cfg : SyncConfig) (h : HandlerState) (internal : Bool)
    (now : ℚ) (group_states : Option (List MemberState)) (g : GroupAttrs) :
    HandlerState × Bool :=
  if h.sync_mode = .standard ∨ h.snapshot_states = none ∨ group_states = none then
    (h, false)
  else
    let states := group_states.getD []
    if internal then
      let pls := get_service_calls h states g now
      let h1 := { h with last_sync_attempt := pls.2 }
      if pls.1 = [] then
        ({ do_snapshot h1 g group_states with internal_change_start_time := none }, false)
      else
        match h1.internal_change_start_time with
        | none => ({ h1 with internal_change_start_time := some now }, false)
        | some t0 =>
          if now - t0 > cfg.internal_change_timeout then
            ({ do_snapshot h1 g group_states with internal_change_start_time := none },
             false)
          else (h1, false)
    else
      let h1 := { h with internal_change_start_time := none }
      if h1.active_tasks ≠ 0 then (h1, false)
      else
        let pls := get_service_calls h1 states g now
        let h2 := { h1 with last_sync_attempt := pls.2 }
        if pls.1 = [] then (h2, false)
        else ({ h2 with active_tasks := h2.active_tasks + 1 }, true)

/-- The member states and group attributes the enforcement loop observes at
each iteration boundary: `cur` before the first attempt, then the ambient
refresh `env (i + k)` after each settle (`_get_valid_member_states()` and
the concurrently updated group attributes). -/
def curAtFrom (env : Nat → List MemberState × GroupAttrs)
    (cur : List MemberState × GroupAttrs) (i : Nat) : Nat → List MemberState × GroupAttrs
  | 0 => cur
  | k + 1 => env (i + k)

/-- The capitulation step of `_enforce_group_state` (`sync_mode.py` lines
249–258): `_do_snapshot()` of the current reality, then reset the retry
counter. -/
def capitulate (h : HandlerState) (cur : List MemberState × GroupAttrs) : HandlerState :=
  { do_snapshot h cur.2 (some cur.1) with sync_retry_counter := 0 }

/-- Embeds `SyncModeHandler._enforce_group_state` (`sync_mode.py` lines 193–258):
up to `sync_retry_attempts + 1` iterations, each recomputing the pending
calls, executing them (the service-call effects are abstracted into `env`),
sleeping the sync delay, and refreshing the member states; stops early when
nothing is pending or the refresh yields no valid states; capitulates to a
fresh snapshot of current reality when attempts are exhausted.  Returns the
final handler state and the number of loop iterations performed. -/
def enforce_aux (cfg : SyncConfig) (env : Nat → List MemberState × GroupAttrs)
    (now : ℚ) : Nat → Nat → HandlerState → List MemberState × GroupAttrs →
    HandlerState × Nat
  | 0, _, h, cur => (capitulate h cur, 0)
  | rem + 1, i, h, cur =>
    let h1 := { h with sync_retry_counter := i + 1 }
    let pls := get_service_calls h1 cur.1 cur.2 now
    let h2 := { h1 with last_sync_attempt := pls.2 }
    if pls.1 = [] then ({ h2 with sync_retry_counter := 0 }, 1)
    else
      let next := env i
      if next.1 = [] then ({ h2 with sync_retry_counter := 0 }, 1)
      else
        let r := enforce_aux cfg env now rem (i + 1) h2 next
        (r.1, r.2 + 1)

/-- Embeds `_enforce_group_state` entered with `max_attempts =
sync_retry_attempts + 1` remaining iterations. -/
def enforce_group_state (cfg : SyncConfig) (env : Nat → List MemberState × GroupAttrs)
    (now : ℚ) (h : HandlerState) (cur : List MemberState × GroupAttrs) :
    HandlerState × Nat :=
  enforce_aux cfg env now (cfg.sync_retry_attempts + 1) 0 h cur

/-- The pending-call list `_get_service_calls` would return for a handler
state against given member states and group attributes (its first
component; the conflict-timer update does not influence it). -/
def pending_at (h : HandlerState) (cur : List MemberState × GroupAttrs)
    (now : ℚ) : List (SyncKey × TSVal) :=
  (get_service_calls h cur.1 cur.2 now).1

/-! ## `service_call.py`: `ServiceCallHandler.execute_with_retry` -/

/-- One attempt's outcome: the executor raised (caught by the `except`
block), or returned a boolean — `True` meaning the state is verified set
(or execution is not possible) and retries stop. -/
inductive ExecOutcome where
  | raised
  | returned (b : Bool)
deriving DecidableEq, Repr

/-- The body of `ServiceCallHandler.execute_with_retry` (`service_call.py`
lines 86–98) from attempt index `i` with `rem` loop iterations left of
`maxAttempts` total: returns the number of executor invocations performed
and the number of `asyncio.sleep(retry_delay)` calls made.  A sleep follows
an attempt unless the attempt returned `True` (the `break` skips it) or it
was the last one (`attempt < max_attempts - 1`). -/
def ewr_aux (exec : Nat → ExecOutcome) (maxAttempts : Nat) : Nat → Nat → Nat × Nat
  | _, 0 => (0, 0)
  | i, rem + 1 =>
    match exec i with
    | .returned true => (1, 0)
    | _ =>
      let s0 := if 1 < maxAttempts ∧ i < maxAttempts - 1 then 1 else 0
      let r := ewr_aux exec maxAttempts (i + 1) rem
      (r.1 + 1, r.2 + s0)

/-- Embeds `ServiceCallHandler.execute_with_retry` (`service_call.py` lines 80–98):
`max_attempts = retry_attempts + 1` (configured retries after the first
attempt); returns `(executor invocations, sleeps of retry_delay)`. -/
def execute_with_retry (retry_attempts : Nat) (exec : Nat → ExecOutcome) : Nat × Nat :=
  ewr_aux exec (retry_attempts + 1) 0 (retry_attempts + 1)

/-- Concrete fixture: a single member reporting the given mode. -/
def c2Member (m : HVACMode) : MemberState :=
  { entity_id := "climate.a", status := .available m }

/-- Concrete fixture: a LOCK-mode handler whose snapshot says `heat` while
the member has drifted to `off`, with a conflict timer started at `t = 1`. -/
def c2Handler : HandlerState :=
  { sync_mode := .lock
    snapshot_attrs := some { hvac_mode := some (.s "heat") }
    snapshot_states := some [c2Member .heat]
    active_tasks := 0
    last_sync_attempt := some 1 }

/-- Concrete fixture: current group attributes showing `off`. -/
def c2Group : GroupAttrs := { hvac_mode := some .off }

/-- Concrete fixture: the observed member states / group attributes. -/
def c2Cur : List MemberState × GroupAttrs := ([c2Member .off], c2Group)

/-- Concrete fixture: the ambient refresh always returns the same drifted
state (a member that never obeys). -/
def c2Env : Nat → List MemberState × GroupAttrs := fun _ => c2Cur

/-- Concrete fixture for C3: a LOCK-mode handler with two active
enforcement tasks. -/
def c3Handler : HandlerState :=
  { sync_mode := .lock, active_tasks := 2, snapshot_states := some [] }

/-! ## Theorems -/

theorem pickMax_mem (f : α → Nat) (a : α) (l : List α) :
    pickMax f a l ∈ a :: l := by
  induction l generalizing a with
  | nil => simp [pickMax]
  | cons b t ih =>
    simp only [pickMax, List.foldl_cons]
    by_cases h : f a < f b
    · simp only [if_pos h]
      have h2 := ih (a := b)
      simp only [pickMax] at h2
      rcases List.mem_cons.mp h2 with h' | h'
      · rw [h']; simp
      · exact List.mem_cons_of_mem _ (List.mem_cons_of_mem _ h')
    · simp only [if_neg h]
      have h2 := ih (a := a)
      simp only [pickMax] at h2
      rcases List.mem_cons.mp h2 with h' | h'
      · rw [h']; simp
      · exact List.mem_cons_of_mem _ (List.mem_cons_of_mem _ h')

theorem pickMax_le (f : α → Nat) (a : α) (l : List α) :
    ∀ y ∈ a :: l, f y ≤ f (pickMax f a l) := by
  induction l generalizing a with
  | nil =>
    intro y hy
    simp at hy
    rw [hy]
    simp [pickMax]
  | cons b t ih =>
    intro y hy
    simp only [pickMax, List.foldl_cons]
    by_cases h : f a < f b
    · simp only [if_pos h]
      have hb := ih (a := b)
      simp only [pickMax] at hb
      rcases List.mem_cons.mp hy with h1 | h1
      · rw [h1]
        exact le_trans (le_of_lt h) (hb b (by simp))
      · exact hb y h1
    · simp only [if_neg h]
      have ha := ih (a := a)
      simp only [pickMax] at ha
      rcases List.mem_cons.mp hy with h1 | h1
      · rw [h1]; exact ha a (by simp)
      · rcases List.mem_cons.mp h1 with h2 | h2
        · rw [h2]; exact le_trans (le_of_not_lt h) (ha a (by simp))
        · exact ha y (List.mem_cons_of_mem _ h2)

theorem mca_spec (current : List HVACMode)
    (h : current.filter (· ≠ HVACMode.off) ≠ []) :
    ∃ r, most_common_active_hvac_mode current = some r ∧
      r ∈ current.filter (· ≠ HVACMode.off) ∧
      ∀ m ∈ current.filter (· ≠ HVACMode.off),
        (current.filter (· ≠ HVACMode.off)).count m ≤
          (current.filter (· ≠ HVACMode.off)).count r := by
  unfold most_common_active_hvac_mode
  rcases hf : current.filter (· ≠ HVACMode.off) with _ | ⟨a, l⟩
  · exact absurd hf h
  · exact ⟨pickMax ((a :: l).count ·) a l, rfl, pickMax_mem _ a l, pickMax_le _ a l⟩

theorem filter_ne_nil_iff (modes : List HVACMode) :
    modes.filter (· ≠ HVACMode.off) = [] ↔ ∀ m ∈ modes, m = HVACMode.off := by
  rw [List.filter_eq_nil_iff]
  simp

theorem mca_spec_modes (modes : List HVACMode)
    (hn : ¬ ∀ m ∈ modes, m = HVACMode.off) :
    ∃ r, most_common_active_hvac_mode modes = some r ∧ r ≠ HVACMode.off ∧ r ∈ modes ∧
      ∀ m ∈ modes, m ≠ HVACMode.off → modes.count m ≤ modes.count r := by
  have hactive : modes.filter (· ≠ HVACMode.off) ≠ [] := by
    intro hnil
    exact hn ((filter_ne_nil_iff modes).mp hnil)
  obtain ⟨r, hr_eq, hr_mem, hr_max⟩ := mca_spec modes hactive
  have hr_mem' := List.mem_filter.mp hr_mem
  have hr_ne : r ≠ HVACMode.off := by simpa using hr_mem'.2
  refine ⟨r, hr_eq, hr_ne, hr_mem'.1, ?_⟩
  intro m hm hm_ne
  have hmf : m ∈ modes.filter (· ≠ HVACMode.off) :=
    List.mem_filter.mpr ⟨hm, by simpa using hm_ne⟩
  have := hr_max m hmf
  rwa [List.count_filter (by simpa using hm_ne),
       List.count_filter (by simpa using hr_ne)] at this

/-- Claim C1. For every non-empty list of valid member HVAC modes:
under the `normal` strategy, `_determine_hvac_mode` returns `OFF` iff every
member mode is `OFF`, and otherwise returns a most frequent non-`OFF` mode;
under the `off_priority` strategy it returns `OFF` iff at least one member
mode is `OFF`, and otherwise returns a most frequent non-`OFF` mode. -/
theorem C1_determine_hvac_mode (tgt : Option HVACMode) (modes : List HVACMode)
    (h : modes ≠ []) :
    (determine_hvac_mode .normal tgt modes = some HVACMode.off ↔
      ∀ m ∈ modes, m = HVACMode.off)
    ∧ (¬ (∀ m ∈ modes, m = HVACMode.off) →
        ∃ r, determine_hvac_mode .normal tgt modes = some r ∧ r ≠ HVACMode.off ∧
          r ∈ modes ∧ ∀ m ∈ modes, m ≠ HVACMode.off → modes.count m ≤ modes.count r)
    ∧ (determine_hvac_mode .off_priority tgt modes = some HVACMode.off ↔
        HVACMode.off ∈ modes)
    ∧ (HVACMode.off ∉ modes →
        ∃ r, determine_hvac_mode .off_priority tgt modes = some r ∧ r ≠ HVACMode.off ∧
          r ∈ modes ∧ ∀ m ∈ modes, m ≠ HVACMode.off → modes.count m ≤ modes.count r) := by
  have hnorm : determine_hvac_mode .normal tgt modes =
      (if (if modes ≠ [] then modes.all (fun m => m = HVACMode.off) else false) then
        some HVACMode.off
      else most_common_active_hvac_mode modes) := rfl
  rw [if_pos h] at hnorm
  have hop : determine_hvac_mode .off_priority tgt modes =
      (if HVACMode.off ∈ modes then some HVACMode.off
       else most_common_active_hvac_mode modes) := rfl
  refine ⟨?_, ?_, ?_, ?_⟩
  · by_cases hall : ∀ m ∈ modes, m = HVACMode.off
    · have hb : modes.all (fun m => m = HVACMode.off) = true := by
        simpa [List.all_eq_true] using hall
      rw [hnorm, if_pos hb]
      exact iff_of_true rfl hall
    · have hb : ¬ modes.all (fun m => m = HVACMode.off) = true := by
        simpa [List.all_eq_true] using hall
      rw [hnorm, if_neg hb]
      obtain ⟨r, hr_eq, hr_ne, -, -⟩ := mca_spec_modes modes hall
      rw [hr_eq]
      simp only [Option.some_inj]
      exact iff_of_false hr_ne hall
  · intro hall
    have hb : ¬ modes.all (fun m => m = HVACMode.off) = true := by
      simpa [List.all_eq_true] using hall
    rw [hnorm, if_neg hb]
    exact mca_spec_modes modes hall
  · by_cases hoff : HVACMode.off ∈ modes
    · rw [hop, if_pos hoff]
      exact iff_of_true rfl hoff
    · rw [hop, if_neg hoff]
      have hall : ¬ ∀ m ∈ modes, m = HVACMode.off := by
        intro hall
        rcases List.exists_mem_of_ne_nil modes h with ⟨x, hx⟩
        exact hoff (hall x hx ▸ hx)
      obtain ⟨r, hr_eq, hr_ne, -, -⟩ := mca_spec_modes modes hall
      rw [hr_eq]
      simp only [Option.some_inj]
      exact iff_of_false hr_ne hoff
  · intro hoff
    rw [hop, if_neg hoff]
    have hall : ¬ ∀ m ∈ modes, m = HVACMode.off := by
      intro hall
      rcases List.exists_mem_of_ne_nil modes h with ⟨x, hx⟩
      exact hoff (hall x hx ▸ hx)
    exact mca_spec_modes modes hall

/-- Witness for C1 at the concrete member modes `[heat, off, heat]`. -/
theorem C1_determine_hvac_mode_witness :
    determine_hvac_mode .normal none [HVACMode.heat, HVACMode.off, HVACMode.heat] ≠
      some HVACMode.off ∧
    determine_hvac_mode .off_priority none [HVACMode.heat, HVACMode.off, HVACMode.heat] =
      some HVACMode.off := by
  have hmain := C1_determine_hvac_mode none [HVACMode.heat, HVACMode.off, HVACMode.heat]
    (by decide)
  constructor
  · intro hcontra
    exact absurd (hmain.1.mp hcontra) (by decide)
  · exact hmain.2.2.1.mpr (by decide)

theorem abs_roundHalfEven_sub (q : ℚ) : |(roundHalfEven q : ℚ) - q| ≤ 1/2 := by
  have h0 : (0:ℚ) ≤ Int.fract q := Int.fract_nonneg q
  have h1 : Int.fract q < 1 := Int.fract_lt_one q
  have hfr : Int.fract q = q - (⌊q⌋ : ℚ) := (Int.self_sub_floor q).symm
  unfold roundHalfEven
  split_ifs with hlt hgt heven
  · rw [show ((⌊q⌋ : ℚ) - q) = -(Int.fract q) by rw [hfr]; ring, abs_neg,
      abs_of_nonneg h0]
    linarith
  · rw [show ((↑(⌊q⌋ + 1) : ℚ) - q) = 1 - Int.fract q by push_cast; rw [hfr]; ring,
      abs_of_nonneg (by linarith)]
    linarith
  · have heq : Int.fract q = 1/2 := le_antisymm (not_lt.mp hgt) (not_lt.mp hlt)
    rw [show ((⌊q⌋ : ℚ) - q) = -(Int.fract q) by rw [hfr]; ring, abs_neg,
      abs_of_nonneg h0, heq]
  · have heq : Int.fract q = 1/2 := le_antisymm (not_lt.mp hgt) (not_lt.mp hlt)
    rw [show ((↑(⌊q⌋ + 1) : ℚ) - q) = 1 - Int.fract q by push_cast; rw [hfr]; ring,
      abs_of_nonneg (by linarith), heq]
    norm_num

theorem int_ne_one_le_abs_sub (m n : ℤ) (h : m ≠ n) : (1:ℚ) ≤ |(m:ℚ) - (n:ℚ)| := by
  have h1 : (1:ℤ) ≤ |m - n| := Int.one_le_abs (sub_ne_zero.mpr h)
  calc (1:ℚ) = ((1:ℤ):ℚ) := by norm_num
  _ ≤ (|m - n| : ℤ) := by exact_mod_cast h1
  _ = |(m:ℚ) - (n:ℚ)| := by push_cast; rfl

/-- Claim C8. For every value `v`: rounding with mode `half` yields an exact
multiple of `0.5` that is a nearest multiple of `0.5` to `v`; rounding with
mode `integer` yields a nearest whole number to `v`; mode `none` returns `v`
unchanged; and rounding with any mode changes the value by at most `0.5`. -/
theorem C8_mean_round (q : ℚ) :
    (∃ n : ℤ, mean_round (some q) .half = some ((n : ℚ) / 2) ∧
      ∀ m : ℤ, |(n : ℚ)/2 - q| ≤ |(m : ℚ)/2 - q|)
    ∧ (∃ n : ℤ, mean_round (some q) .integer = some ((n : ℚ)) ∧
      ∀ m : ℤ, |(n : ℚ) - q| ≤ |(m : ℚ) - q|)
    ∧ mean_round (some q) .none = some q
    ∧ (∀ o : RoundOption, ∃ r : ℚ, mean_round (some q) o = some r ∧ |r - q| ≤ 1/2) := by
  have hhalf : |((roundHalfEven (q * 2) : ℚ)) / 2 - q| ≤ 1/4 := by
    have h := abs_roundHalfEven_sub (q * 2)
    rw [show ((roundHalfEven (q * 2) : ℚ)) / 2 - q =
      ((roundHalfEven (q * 2) : ℚ) - q * 2) / 2 by ring, abs_div]
    rw [abs_of_pos (by norm_num : (0:ℚ) < 2)]
    linarith
  have hint : |((roundHalfEven q : ℚ)) - q| ≤ 1/2 := abs_roundHalfEven_sub q
  refine ⟨⟨roundHalfEven (q * 2), rfl, ?_⟩, ⟨roundHalfEven q, rfl, ?_⟩, rfl, ?_⟩
  · intro m
    by_cases hmn : m = roundHalfEven (q * 2)
    · rw [hmn]
    · have h1 : (1:ℚ) ≤ |(m:ℚ) - (roundHalfEven (q * 2) : ℚ)| :=
        int_ne_one_le_abs_sub m (roundHalfEven (q * 2)) hmn
      have htri : |(m:ℚ)/2 - (roundHalfEven (q * 2) : ℚ)/2| ≤
          |(m:ℚ)/2 - q| + |q - (roundHalfEven (q * 2) : ℚ)/2| := abs_sub_le _ q _
      have habs : |(m:ℚ)/2 - (roundHalfEven (q * 2) : ℚ)/2| =
          |(m:ℚ) - (roundHalfEven (q * 2) : ℚ)| / 2 := by
        rw [show (m:ℚ)/2 - (roundHalfEven (q * 2) : ℚ)/2 =
          ((m:ℚ) - (roundHalfEven (q * 2) : ℚ)) / 2 by ring, abs_div,
          abs_of_pos (by norm_num : (0:ℚ) < 2)]
      have hcomm : |q - (roundHalfEven (q * 2) : ℚ)/2| =
          |(roundHalfEven (q * 2) : ℚ)/2 - q| := abs_sub_comm _ _
      rw [habs, hcomm] at htri
      linarith
  · intro m
    by_cases hmn : m = roundHalfEven q
    · rw [hmn]
    · have h1 : (1:ℚ) ≤ |(m:ℚ) - (roundHalfEven q : ℚ)| :=
        int_ne_one_le_abs_sub m (roundHalfEven q) hmn
      have htri : |(m:ℚ) - (roundHalfEven q : ℚ)| ≤
          |(m:ℚ) - q| + |q - (roundHalfEven q : ℚ)| := abs_sub_le _ q _
      have hcomm : |q - (roundHalfEven q : ℚ)| = |(roundHalfEven q : ℚ) - q| :=
        abs_sub_comm _ _
      rw [hcomm] at htri
      linarith
  · intro o
    match o with
    | .half => exact ⟨_, rfl, by linarith⟩
    | .integer => exact ⟨_, rfl, hint⟩
    | .none => exact ⟨q, rfl, by simp⟩

theorem dictLookup_filterMap_not_mem (f : TSKey → Option TSVal) (k : TSKey) :
    ∀ keys : List TSKey, k ∉ keys →
      dictLookup k (keys.filterMap (fun j => (f j).map (fun v => (j, v)))) = none := by
  intro keys
  induction keys with
  | nil => intro; rfl
  | cons a rest ih =>
    intro hk
    have hka : a ≠ k := fun h => hk (h ▸ List.mem_cons_self a rest)
    have hkr : k ∉ rest := fun h => hk (List.mem_cons_of_mem a h)
    cases hfa : f a with
    | none => simpa [List.filterMap_cons, hfa] using ih hkr
    | some v => simpa [List.filterMap_cons, hfa, dictLookup, hka] using ih hkr

theorem dictLookup_filterMap (f : TSKey → Option TSVal) (k : TSKey) :
    ∀ keys : List TSKey, k ∈ keys → keys.Nodup →
      dictLookup k (keys.filterMap (fun j => (f j).map (fun v => (j, v)))) = f k := by
  intro keys
  induction keys with
  | nil => intro h; simp at h
  | cons a rest ih =>
    intro hmem hnd
    rcases List.mem_cons.mp hmem with rfl | hmem'
    · cases hfk : f k with
      | none =>
        have hkr : k ∉ rest := (List.nodup_cons.mp hnd).1
        simpa [List.filterMap_cons, hfk] using
          dictLookup_filterMap_not_mem f k rest hkr
      | some v => simp [List.filterMap_cons, hfk, dictLookup]
    · have hnd' := (List.nodup_cons.mp hnd).2
      have hka : a ≠ k := by
        rintro rfl
        exact (List.nodup_cons.mp hnd).1 hmem'
      cases hfa : f a with
      | none => simpa [List.filterMap_cons, hfa] using ih hmem' hnd'
      | some v => simpa [List.filterMap_cons, hfa, dictLookup, hka] using ih hmem' hnd'

theorem dictLookup_to_dict (t : TargetState) (k : TSKey) :
    dictLookup k t.to_dict = getField t k := by
  apply dictLookup_filterMap
  · cases k <;> simp [allTSKeys]
  · decide

/-- Claim C7. `TargetState.update(**delta)` is copy-on-write: reading the
updated state back through `to_dict` reproduces exactly the values assigned
by the delta, and every field the delta does not assign keeps the value it
has in the original state (which, being a frozen value, is never mutated). -/
theorem C7_target_state_round_trip (t : TargetState) (d : TargetDelta) (k : TSKey) :
    (∀ v, deltaGet d k = some v → dictLookup k (t.update d).to_dict = some v)
    ∧ (deltaGet d k = none → getField (t.update d) k = getField t k) := by
  constructor
  · intro v hv
    rw [dictLookup_to_dict]
    cases k <;>
      first
      | (simp only [deltaGet] at hv
         rcases Option.map_eq_some'.mp hv with ⟨w, hw, rfl⟩
         simp [getField, TargetState.update, hw])
  · intro hn
    cases k <;>
      first
      | (simp only [deltaGet, Option.map_eq_none'] at hn
         simp [getField, TargetState.update, hn])

/-- Witness for C7: a concrete state and a delta assigning `temperature`. -/
theorem C7_target_state_round_trip_witness :
    dictLookup TSKey.temperature
      (TargetState.update { hvac_mode := some "heat" } { temperature := some 21 }).to_dict =
      some (TSVal.q 21)
    ∧ getField (TargetState.update { hvac_mode := some "heat" } { temperature := some 21 })
        TSKey.hvac_mode = getField { hvac_mode := some "heat" } TSKey.hvac_mode :=
  ⟨(C7_target_state_round_trip { hvac_mode := some "heat" }
      { temperature := some 21 } TSKey.temperature).1 (TSVal.q 21) rfl,
   (C7_target_state_round_trip { hvac_mode := some "heat" }
      { temperature := some 21 } TSKey.hvac_mode).2 rfl⟩

theorem sort_hvac_modes_spec (modes : List HVACMode) :
    HVACMode.off ∈ sort_hvac_modes modes ∧
      (sort_hvac_modes modes).Sublist allHVACModes ∧ (sort_hvac_modes modes).Nodup := by
  refine ⟨?_, List.filter_sublist _, ?_⟩
  · apply List.mem_filter.mpr
    refine ⟨by decide, ?_⟩
    simp
  · exact List.Nodup.sublist (List.filter_sublist _) (by decide)

/-- Claim C6. When zero members have a valid state, the group-state update
marks the group unavailable and clears `hvac_mode` to `None`, leaving every
other group attribute untouched; when at least one member is valid, the
group is marked available. -/
theorem C6_no_valid_members_frame (cfg : GroupConfig) (env : GroupEnv)
    (g : GroupAttrs) (all_states : List MemberState) :
    (validMemberStates all_states = [] →
      (update_group_state cfg env g all_states).available = false ∧
      (update_group_state cfg env g all_states).hvac_mode = none ∧
      (update_group_state cfg env g all_states).hvac_modes = g.hvac_modes ∧
      (update_group_state cfg env g all_states).last_active_hvac_mode =
        g.last_active_hvac_mode ∧
      (update_group_state cfg env g all_states).assumed_state = g.assumed_state ∧
      (update_group_state cfg env g all_states).hvac_action = g.hvac_action ∧
      (update_group_state cfg env g all_states).current_temperature =
        g.current_temperature ∧
      (update_group_state cfg env g all_states).averaged_current_temperature =
        g.averaged_current_temperature ∧
      (update_group_state cfg env g all_states).target_temperature =
        g.target_temperature ∧
      (update_group_state cfg env g all_states).target_temperature_step =
        g.target_temperature_step ∧
      (update_group_state cfg env g all_states).target_temperature_low =
        g.target_temperature_low ∧
      (update_group_state cfg env g all_states).target_temperature_high =
        g.target_temperature_high ∧
      (update_group_state cfg env g all_states).min_temp = g.min_temp ∧
      (update_group_state cfg env g all_states).max_temp = g.max_temp ∧
      (update_group_state cfg env g all_states).current_humidity =
        g.current_humidity ∧
      (update_group_state cfg env g all_states).target_humidity = g.target_humidity ∧
      (update_group_state cfg env g all_states).min_humidity = g.min_humidity ∧
      (update_group_state cfg env g all_states).max_humidity = g.max_humidity ∧
      (update_group_state cfg env g all_states).fan_modes = g.fan_modes ∧
      (update_group_state cfg env g all_states).fan_mode = g.fan_mode ∧
      (update_group_state cfg env g all_states).preset_modes = g.preset_modes ∧
      (update_group_state cfg env g all_states).preset_mode = g.preset_mode ∧
      (update_group_state cfg env g all_states).swing_modes = g.swing_modes ∧
      (update_group_state cfg env g all_states).swing_mode = g.swing_mode ∧
      (update_group_state cfg env g all_states).swing_horizontal_modes =
        g.swing_horizontal_modes ∧
      (update_group_state cfg env g all_states).swing_horizontal_mode =
        g.swing_horizontal_mode ∧
      (update_group_state cfg env g all_states).supported_features =
        g.supported_features)
    ∧ (validMemberStates all_states ≠ [] →
        (update_group_state cfg env g all_states).available = true) := by
  constructor
  · intro h
    simp [update_group_state, h]
  · intro h
    simp [update_group_state, h]

/-- Witness for C6 at concrete inputs: one all-invalid member list and one
with a valid member. -/
theorem C6_no_valid_members_frame_witness :
    ((update_group_state {} {} { min_temp := 12 }
        [{ entity_id := "climate.a", status := .unavailable }]).available = false ∧
      (update_group_state {} {} { min_temp := 12 }
        [{ entity_id := "climate.a", status := .unavailable }]).min_temp = 12)
    ∧ (update_group_state {} {}
        { min_temp := 12 } [{ entity_id := "climate.a", status := .available .heat }]).available
        = true := by
  have h1 := (C6_no_valid_members_frame {} {} { min_temp := 12 }
    [{ entity_id := "climate.a", status := .unavailable }]).1 (by decide)
  have h2 := (C6_no_valid_members_frame {} {} { min_temp := 12 }
    [{ entity_id := "climate.a", status := .available .heat }]).2 (by decide)
  exact ⟨⟨h1.1, h1.2.2.2.2.2.2.2.2.2.2.2.2.1⟩, h2⟩

/-- Claim C10. After a group-state update with at least one valid member, the
group's `hvac_modes` list contains `OFF`, is ordered by the `HVACMode` enum
order, and has no duplicates (being a sublist of the enum order). -/
theorem C10_hvac_modes_invariant (cfg : GroupConfig) (env : GroupEnv)
    (g : GroupAttrs) (all_states : List MemberState)
    (h : validMemberStates all_states ≠ []) :
    HVACMode.off ∈ (update_group_state cfg env g all_states).hvac_modes ∧
    (update_group_state cfg env g all_states).hvac_modes.Sublist allHVACModes ∧
    (update_group_state cfg env g all_states).hvac_modes.Nodup := by
  simp only [update_group_state, if_neg h]
  exact sort_hvac_modes_spec _

/-- Witness for C10: one valid member advertising only `[heat]` — `OFF` is
still included. -/
theorem C10_hvac_modes_invariant_witness :
    HVACMode.off ∈ (update_group_state {} {} {}
      [{ entity_id := "climate.a", status := .available .heat,
         hvac_modes := some [.heat] }]).hvac_modes ∧
    (update_group_state {} {} {}
      [{ entity_id := "climate.a", status := .available .heat,
         hvac_modes := some [.heat] }]).hvac_modes.Sublist allHVACModes ∧
    (update_group_state {} {} {}
      [{ entity_id := "climate.a", status := .available .heat,
         hvac_modes := some [.heat] }]).hvac_modes.Nodup :=
  C10_hvac_modes_invariant {} {} {}
    [{ entity_id := "climate.a", status := .available .heat,
       hvac_modes := some [.heat] }] (by decide)

theorem last_active_next_idem (h la : Option HVACMode) :
    (if h ≠ some HVACMode.off ∧ h ≠ (if h ≠ some HVACMode.off ∧ h ≠ la then h else la)
     then h else (if h ≠ some HVACMode.off ∧ h ≠ la then h else la)) =
    (if h ≠ some HVACMode.off ∧ h ≠ la then h else la) := by
  by_cases hc : h ≠ some HVACMode.off ∧ h ≠ la
  · rw [if_pos hc]
    simp
  · rw [if_neg hc, if_neg hc]

/-- Claim C9. With a fixed set of member states (and sensor/target inputs),
running the group-state update twice yields exactly the same group
attributes as running it once; the member states are inputs of a pure
function and are never mutated. -/
theorem C9_update_idempotent (cfg : GroupConfig) (env : GroupEnv)
    (g : GroupAttrs) (all_states : List MemberState) :
    update_group_state cfg env (update_group_state cfg env g all_states) all_states =
      update_group_state cfg env g all_states := by
  by_cases h : validMemberStates all_states = []
  · simp [update_group_state, h]
  · simp only [update_group_state, if_neg h]
    congr 1
    exact last_active_next_idem _ _

/-- Claim C4, code evaluation. At two valid members with `min_temp` 5 and 10
and `max_temp` 20 and 30, the update computes group `min_temp = 5`
(the *lowest* member minimum, `reduce=min` at `climate.py` line 747) and
`max_temp = 30` (the *highest* member maximum, `reduce=max` at line 750),
not the claimed tightest common range 10 and 20; the humidity limits do
follow the claim (`max` of minimums, `min` of maximums). -/
theorem C4_limits_eval :
    (update_group_state {} {} {}
      [{ entity_id := "climate.a", status := .available .heat, min_temp := some 5,
         max_temp := some 20, min_humidity := some 40, max_humidity := some 80 },
       { entity_id := "climate.b", status := .available .heat, min_temp := some 10,
         max_temp := some 30, min_humidity := some 50, max_humidity := some 70 }]).min_temp
      = 5 ∧
    (update_group_state {} {} {}
      [{ entity_id := "climate.a", status := .available .heat, min_temp := some 5,
         max_temp := some 20, min_humidity := some 40, max_humidity := some 80 },
       { entity_id := "climate.b", status := .available .heat, min_temp := some 10,
         max_temp := some 30, min_humidity := some 50, max_humidity := some 70 }]).max_temp
      = 30 ∧
    (update_group_state {} {} {}
      [{ entity_id := "climate.a", status := .available .heat, min_temp := some 5,
         max_temp := some 20, min_humidity := some 40, max_humidity := some 80 },
       { entity_id := "climate.b", status := .available .heat, min_temp := some 10,
         max_temp := some 30, min_humidity := some 50, max_humidity := some 70 }]).min_humidity
      = 50 ∧
    (update_group_state {} {} {}
      [{ entity_id := "climate.a", status := .available .heat, min_temp := some 5,
         max_temp := some 20, min_humidity := some 40, max_humidity := some 80 },
       { entity_id := "climate.b", status := .available .heat, min_temp := some 10,
         max_temp := some 30, min_humidity := some 50, max_humidity := some 70 }]).max_humidity
      = 70 := by
  decide

theorem ewr_aux_le (exec : Nat → ExecOutcome) (M : Nat) :
    ∀ rem i, (ewr_aux exec M i rem).1 ≤ rem := by
  intro rem
  induction rem with
  | zero => intro i; simp [ewr_aux]
  | succ n ih =>
    intro i
    rcases hx : exec i with _ | b
    · simpa [ewr_aux, hx] using Nat.succ_le_succ (ih (i + 1))
    · cases b
      · simpa [ewr_aux, hx] using Nat.succ_le_succ (ih (i + 1))
      · simp [ewr_aux, hx]

theorem ewr_aux_pos (exec : Nat → ExecOutcome) (M : Nat) :
    ∀ rem i, 0 < rem → 1 ≤ (ewr_aux exec M i rem).1 := by
  intro rem i h
  match rem, h with
  | n + 1, _ =>
    rcases hx : exec i with _ | b
    · simp [ewr_aux, hx]
    · cases b
      · simp [ewr_aux, hx]
      · simp [ewr_aux, hx]

theorem ewr_aux_sleeps (exec : Nat → ExecOutcome) (M : Nat) :
    ∀ rem i, i + rem = M → (ewr_aux exec M i rem).2 = (ewr_aux exec M i rem).1 - 1 := by
  intro rem
  induction rem with
  | zero => intro i _; simp [ewr_aux]
  | succ n ih =>
    intro i hi
    rcases hx : exec i with _ | b
    · by_cases hc : 1 < M ∧ i < M - 1
      · have hn : 0 < n := by omega
        have hr2 := ih (i + 1) (by omega)
        have hr1 := ewr_aux_pos exec M n (i + 1) hn
        simp only [ewr_aux, hx]
        rw [if_pos hc]
        omega
      · have hn : n = 0 := by omega
        subst hn
        simp only [ewr_aux, hx]
        rw [if_neg hc]
    · cases b
      · by_cases hc : 1 < M ∧ i < M - 1
        · have hn : 0 < n := by omega
          have hr2 := ih (i + 1) (by omega)
          have hr1 := ewr_aux_pos exec M n (i + 1) hn
          simp only [ewr_aux, hx]
          rw [if_pos hc]
          omega
        · have hn : n = 0 := by omega
          subst hn
          simp only [ewr_aux, hx]
          rw [if_neg hc]
      · simp [ewr_aux, hx]

theorem ewr_aux_first (exec : Nat → ExecOutcome) (M : Nat) :
    ∀ rem i k, k < rem → exec (i + k) = .returned true →
      (∀ j, j < k → exec (i + j) ≠ .returned true) →
      (ewr_aux exec M i rem).1 = k + 1 := by
  intro rem
  induction rem with
  | zero => intro i k hk; omega
  | succ n ih =>
    intro i k hk hx hj
    cases k with
    | zero =>
      have hx0 : exec i = .returned true := hx
      simp [ewr_aux, hx0]
    | succ k' =>
      have h0 : exec i ≠ .returned true := hj 0 (Nat.succ_pos k')
      have harg : (i + 1) + k' = i + (k' + 1) := by omega
      have hx' : exec ((i + 1) + k') = .returned true := by rw [harg]; exact hx
      have hj' : ∀ j, j < k' → exec ((i + 1) + j) ≠ .returned true := by
        intro j hjlt
        have : (i + 1) + j = i + (j + 1) := by omega
        rw [this]
        exact hj (j + 1) (by omega)
      have hrec := ih (i + 1) k' (by omega) hx' hj'
      rcases hxe : exec i with _ | b
      · simp [ewr_aux, hxe, hrec]
      · cases b
        · simp [ewr_aux, hxe, hrec]
        · exact absurd hxe h0

/-- Claim C5. `execute_with_retry` invokes the executor at least once and at
most `retry_attempts + 1` times, sleeps `retry_delay` exactly once between
each pair of consecutive attempts (`sleeps = attempts - 1`), and stops with
attempt `i + 1` as soon as attempt `i` is the first to report the state
verified; termination within the attempt bound holds for every executor
behaviour, including one that never succeeds. -/
theorem C5_execute_with_retry (retry_attempts : Nat) (exec : Nat → ExecOutcome) :
    1 ≤ (execute_with_retry retry_attempts exec).1
    ∧ (execute_with_retry retry_attempts exec).1 ≤ retry_attempts + 1
    ∧ (execute_with_retry retry_attempts exec).2 =
        (execute_with_retry retry_attempts exec).1 - 1
    ∧ ∀ i, i ≤ retry_attempts → exec i = .returned true →
        (∀ j, j < i → exec j ≠ .returned true) →
        (execute_with_retry retry_attempts exec).1 = i + 1 := by
  refine ⟨ewr_aux_pos exec _ _ 0 (Nat.succ_pos _), ewr_aux_le exec _ _ 0,
    ewr_aux_sleeps exec _ _ 0 (by omega), ?_⟩
  intro i hi hx hj
  have h := ewr_aux_first exec (retry_attempts + 1) (retry_attempts + 1) 0 i
    (by omega) (by simpa using hx) (by simpa using hj)
  simpa [execute_with_retry] using h

/-- Witness for C5: with 2 configured retries and an executor first
verified at attempt index 1, exactly 2 attempts are made. -/
theorem C5_execute_with_retry_witness :
    (execute_with_retry 2
      (fun n => if n = 1 then ExecOutcome.returned true
                else ExecOutcome.returned false)).1 = 2 :=
  (C5_execute_with_retry 2
      (fun n => if n = 1 then ExecOutcome.returned true
                else ExecOutcome.returned false)).2.2.2
    1 (by decide) (by decide) (by decide)

theorem get_service_calls_fst (h : HandlerState) (states : List MemberState)
    (g : GroupAttrs) (now : ℚ) :
    (get_service_calls h states g now).1 =
      pending_calls h.sync_mode h.snapshot_attrs h.snapshot_states states g := by
  unfold get_service_calls pending_calls
  cases hf : first_changed_member (h.snapshot_states.getD []) states <;> simp [hf]

theorem enforce_aux_iters_le (cfg : SyncConfig)
    (env : Nat → List MemberState × GroupAttrs) (now : ℚ) :
    ∀ rem i h cur, (enforce_aux cfg env now rem i h cur).2 ≤ rem := by
  intro rem
  induction rem with
  | zero => intro i h cur; simp [enforce_aux]
  | succ n ih =>
    intro i h cur
    simp only [enforce_aux]
    split
    · simp
    · split
      · simp
      · simpa using Nat.succ_le_succ (ih (i + 1) _ _)

theorem curAtFrom_shift (env : Nat → List MemberState × GroupAttrs)
    (cur : List MemberState × GroupAttrs) (i : Nat) :
    ∀ k, curAtFrom env cur i (k + 1) = curAtFrom env (env i) (i + 1) k := by
  intro k
  cases k with
  | zero => rfl
  | succ k' =>
    show env (i + (k' + 1)) = env ((i + 1) + k')
    congr 1
    omega

theorem enforce_aux_capitulates (cfg : SyncConfig)
    (env : Nat → List MemberState × GroupAttrs) (now : ℚ)
    (mode : SyncMode) (sa : Option SnapAttrs) (ss : Option (List MemberState))
    (tasks : Nat) (ict : Option ℚ) :
    ∀ (rem i : Nat) (h : HandlerState) (cur : List MemberState × GroupAttrs),
      h.sync_mode = mode → h.snapshot_attrs = sa → h.snapshot_states = ss →
      h.active_tasks = tasks → h.internal_change_start_time = ict →
      (∀ k, k < rem →
        pending_calls mode sa ss
          (curAtFrom env cur i k).1 (curAtFrom env cur i k).2 ≠ [] ∧
        (curAtFrom env cur i (k + 1)).1 ≠ []) →
      enforce_aux cfg env now rem i h cur =
        ({ sync_mode := mode
           snapshot_attrs := some (snapAttrsOf (curAtFrom env cur i rem).2)
           snapshot_states := some (curAtFrom env cur i rem).1
           active_tasks := tasks
           last_sync_attempt := none
           internal_change_start_time := ict
           sync_retry_counter := 0 }, rem) := by
  intro rem
  induction rem with
  | zero =>
    intro i h cur hm hsa hss ht hict _
    simp only [enforce_aux, capitulate, do_snapshot, curAtFrom]
    rw [Prod.mk.injEq]
    refine ⟨?_, rfl⟩
    rw [hm, ht, hict]
    simp
  | succ n ih =>
    intro i h cur hm hsa hss ht hict hyp
    have h01 : pending_calls h.sync_mode h.snapshot_attrs h.snapshot_states
        cur.1 cur.2 ≠ [] := by
      rw [hm, hsa, hss]
      exact (hyp 0 (Nat.succ_pos n)).1
    have h02 : (env i).1 ≠ [] := (hyp 0 (Nat.succ_pos n)).2
    simp only [enforce_aux, get_service_calls_fst]
    rw [if_neg h01, if_neg h02]
    have hrec := ih (i + 1)
      { h with sync_retry_counter := i + 1,
               last_sync_attempt :=
                 (get_service_calls { h with sync_retry_counter := i + 1 }
                   cur.1 cur.2 now).2 }
      (env i) hm hsa hss ht hict ?shifted
    case shifted =>
      intro k hk
      constructor
      · rw [← curAtFrom_shift]
        exact (hyp (k + 1) (by omega)).1
      · rw [← curAtFrom_shift]
        exact (hyp (k + 1) (by omega)).2
    rw [hrec]
    rw [← curAtFrom_shift]

/-- Claim C2. Enforcement never loops forever: `_enforce_group_state`
performs at most `sync_retry_attempts + 1` iterations; when deviations
remain at every iteration's check (and the refreshed states stay
non-empty), the loop runs exactly `sync_retry_attempts + 1` iterations and
capitulates — the final handler state is a fresh `_do_snapshot` of the
current group attributes and member states with the retry counter reset.
Likewise in LOCK mode, `snapshot_group_state` answers an external change
whose conflict has outlived
`retry_attempts * retry_delay + sync_mode_delay + safety buffer` seconds
with a fresh snapshot instead of further enforcement. -/
theorem C2_enforcement_bounded_capitulation (cfg : SyncConfig)
    (env : Nat → List MemberState × GroupAttrs) (now : ℚ)
    (h : HandlerState) (cur : List MemberState × GroupAttrs)
    (g : GroupAttrs) (states : Option (List MemberState)) :
    (enforce_group_state cfg env now h cur).2 ≤ cfg.sync_retry_attempts + 1
    ∧ ((∀ k, k ≤ cfg.sync_retry_attempts →
          pending_calls h.sync_mode h.snapshot_attrs h.snapshot_states
            (curAtFrom env cur 0 k).1 (curAtFrom env cur 0 k).2 ≠ [] ∧
          (curAtFrom env cur 0 (k + 1)).1 ≠ []) →
        enforce_group_state cfg env now h cur =
          (capitulate h (curAtFrom env cur 0 (cfg.sync_retry_attempts + 1)),
           cfg.sync_retry_attempts + 1))
    ∧ (h.sync_mode = .lock → h.active_tasks = 0 →
        ∀ t, h.last_sync_attempt = some t → now - t > reset_delay_seconds cfg →
          snapshot_group_state h false now cfg g states = do_snapshot h g states) := by
  refine ⟨enforce_aux_iters_le cfg env now _ 0 h cur, ?_, ?_⟩
  · intro hyp
    have hcap := enforce_aux_capitulates cfg env now h.sync_mode h.snapshot_attrs
      h.snapshot_states h.active_tasks h.internal_change_start_time
      (cfg.sync_retry_attempts + 1) 0 h cur rfl rfl rfl rfl rfl
      (fun k hk => hyp k (by omega))
    rw [enforce_group_state, hcap]
    rw [Prod.mk.injEq]
    refine ⟨?_, rfl⟩
    simp [capitulate, do_snapshot]
  · intro hm hT t hl he
    unfold snapshot_group_state
    rw [hm]
    simp [hT, hl, he]

/-- Witness for C2 at the concrete LOCK fixture: a member that never obeys
makes the loop (1 attempt for `sync_retry_attempts = 0`) capitulate to a
snapshot of the drifted reality, and the stale conflict timer makes
`snapshot_group_state` take a fresh snapshot. -/
theorem C2_enforcement_bounded_capitulation_witness :
    enforce_group_state {} c2Env 100 c2Handler c2Cur =
      (capitulate c2Handler (curAtFrom c2Env c2Cur 0 1), 1)
    ∧ snapshot_group_state c2Handler false 100 {} c2Group (some [c2Member .off]) =
        do_snapshot c2Handler c2Group (some [c2Member .off]) := by
  have hmain := C2_enforcement_bounded_capitulation {} c2Env 100 c2Handler c2Cur
    c2Group (some [c2Member .off])
  exact ⟨hmain.2.1 (by decide),
    hmain.2.2 rfl rfl 1 rfl
      (by norm_num [reset_delay_seconds, SYNC_SAFETY_BUFFER_SECONDS])⟩

/-- Claim C3. While the update's context id equals the group's last-issued
command context id (an internal/echo change), `snapshot_group_state`
cancels every active enforcement task and `handle_sync_mode_changes`
starts no new enforcement task — the group's own echoed command triggers
no second enforcement cycle.  (In STANDARD mode the handler never has
active tasks, expressed by the invariant hypothesis.) -/
theorem C3_echo_suppression (cfg : SyncConfig) (h : HandlerState) (now : ℚ)
    (g : GroupAttrs) (snap_states group_states : Option (List MemberState))
    (hstd : h.sync_mode = .standard → h.active_tasks = 0) :
    (snapshot_group_state h true now cfg g snap_states).active_tasks = 0
    ∧ (handle_sync_mode_changes cfg h true now group_states g).2 = false := by
  constructor
  · unfold snapshot_group_state
    by_cases hm : h.sync_mode = .standard
    · rw [if_pos hm]
      exact hstd hm
    · rw [if_neg hm]
      simp
  · unfold handle_sync_mode_changes
    by_cases hg : h.sync_mode = .standard ∨ h.snapshot_states = none ∨
        group_states = none
    · rw [if_pos hg]
    · rw [if_neg hg]
      simp only [if_true]
      split
      · rfl
      · split
        · rfl
        · split <;> rfl

/-- Witness for C3: internal change against a LOCK handler with two active
tasks — both are cancelled and no enforcement is started. -/
theorem C3_echo_suppression_witness :
    (snapshot_group_state c3Handler true 0 {} {} none).active_tasks = 0
    ∧ (handle_sync_mode_changes {} c3Handler true 0 (some []) {}).2 = false :=
  C3_echo_suppression {} c3Handler 0 {} none (some []) (by decide)

end ClimateGroupHelper
